import Mathlib

/-!
Verification of the schema-driven detail-rendering component
(src/components/common/DynamicDetailsModal.tsx) of the Dashboard-Template
repository: the value formatter, the field grouper, the modal title
fallback, the section separators and the conditional action bar.

The embedding is shallow: JavaScript runtime values are the inductive
type Value, the produced React tree is the inductive type PNode, and the
component functions are translated one-to-one from the TSX source.
Side-effecting callbacks (action onClick handlers, the close callback)
are modelled as trace emitters: functions returning lists of abstract
events.
-/

namespace DynamicDetailsModal

/-- Presentation nodes: the shape of the React tree produced by the
component.  Each constructor mirrors one JSX element form used in the
source file.  The constructor jsError represents a thrown JavaScript
exception escaping to the rendering layer; it is produced only where the
source would actually throw (reading a property of an undefined column). -/
inductive PNode where
  | text (s : String)
  | span (cls : String) (children : List PNode)
  | div (cls : String) (children : List PNode)
  | para (cls : String) (children : List PNode)
  | heading (cls : String) (children : List PNode)
  | icon (name : String) (cls : String)
  | anchor (href : String) (cls : String) (children : List PNode)
  | badge (variant : String) (cls : String) (style : Option (String × String))
      (children : List PNode)
  | img (src : String) (alt : String) (width : Nat) (height : Nat)
      (cls : String) (unoptimized : Bool)
  | rawHtmlDiv (cls : String) (html : String)
  | separator
  | jsError (msg : String)
  deriving Repr

/-- JavaScript runtime values that can appear in a record: null,
undefined, strings, (integer) numbers, booleans, arrays and plain
objects.  This covers every shape the component inspects. -/
inductive Value where
  | vNull
  | vUndefined
  | vStr (s : String)
  | vNum (n : Int)
  | vBool (b : Bool)
  | vArr (elems : List Value)
  | vObj (fields : List (String × Value))
  deriving Repr

/-- The GenericDataItem record: an open mapping from string keys to
values, modelled as an association list (first binding wins, as in a
JavaScript object with unique keys). -/
def GenericDataItem : Type := List (String × Value)

/-- Property lookup item[key]: a missing key yields undefined. -/
def getField (item : GenericDataItem) (key : String) : Value :=
  (List.lookup key item).getD .vUndefined

/-- The test value === null || value === undefined from the first line of
formatValue. -/
def isNullish : Value → Bool
  | .vNull => true
  | .vUndefined => true
  | _ => false

/-- JavaScript truthiness of a value (used by the object-entry filter
([, v]) => v in the default object branch). -/
def jsTruthy : Value → Bool
  | .vNull => false
  | .vUndefined => false
  | .vStr s => !s.isEmpty
  | .vNum n => n != 0
  | .vBool b => b
  | .vArr _ => true
  | .vObj _ => true

mutual
/-- The JavaScript String(value) coercion on the value shapes of Value:
strings are themselves, numbers and booleans print canonically, null and
undefined print their names, arrays join their elements with commas
(null and undefined elements joining as empty), and plain objects print
as the literal object marker. -/
def jsToString : Value → String
  | .vNull => "null"
  | .vUndefined => "undefined"
  | .vStr s => s
  | .vNum n => toString n
  | .vBool b => if b then "true" else "false"
  | .vArr l => String.intercalate "," (jsJoinElems l)
  | .vObj _ => "[object Object]"

/-- Element strings for Array.prototype.join: null and undefined become
empty strings, everything else is String-coerced. -/
def jsJoinElems : List Value → List String
  | [] => []
  | .vNull :: rest => "" :: jsJoinElems rest
  | .vUndefined :: rest => "" :: jsJoinElems rest
  | v :: rest => jsToString v :: jsJoinElems rest
end

/-- Left-pads a string with zeros to 3 characters (digit-group helper
for Number.prototype.toLocaleString). -/
def pad3 (s : String) : String :=
  String.mk (List.replicate (3 - s.length) '0') ++ s

/-- Comma-grouping of a natural number, as produced by
Number.prototype.toLocaleString in the en-US locale. -/
def commaGroup (n : Nat) : String :=
  if h : n < 1000 then toString n
  else commaGroup (n / 1000) ++ "," ++ pad3 (toString (n % 1000))
  termination_by n
  decreasing_by
    exact Nat.div_lt_self (Nat.lt_of_lt_of_le (by norm_num) (Nat.le_of_not_lt h)) (by norm_num)

/-- Model of Number.prototype.toLocaleString for integer values. -/
def numToLocaleString (n : Int) : String :=
  if n < 0 then "-" ++ commaGroup n.natAbs else commaGroup n.natAbs

/-- Character-list prefix test: does the first list start with the
second. -/
def startsWithList : List Char → List Char → Bool
  | _, [] => true
  | [], _ :: _ => false
  | c :: cs, p :: ps => c == p && startsWithList cs ps

/-- Character-list substring test: does some suffix of the list start
with the pattern. -/
def containsList (pat : List Char) : List Char → Bool
  | [] => startsWithList [] pat
  | c :: cs => startsWithList (c :: cs) pat || containsList pat cs

/-- Substring test s.includes(pat) of JavaScript (case-sensitive). -/
def strIncludes (s pat : String) : Bool :=
  containsList pat.data s.data

/-- Model of the host JavaScript date pipeline
new Date(s).toLocaleDateString(): an ISO calendar date string
YYYY-MM-DD parses and prints as M/D/YYYY in the en-US locale; every
other string is treated as unparseable and surfaces as the literal
Invalid Date text, which is all the component relies on. -/
def splitCharList (c : Char) : List Char → List (List Char)
  | [] => [[]]
  | x :: xs =>
    let r := splitCharList c xs
    if x == c then [] :: r
    else
      match r with
      | [] => [[x]]
      | h :: t => (x :: h) :: t

/-- Digit-list to number conversion (most significant first), none when
a character is not a decimal digit or the list is empty. -/
def digitsToNat? (cs : List Char) : Option Nat :=
  if cs.isEmpty || !cs.all Char.isDigit then none
  else some (cs.foldl (fun acc c => acc * 10 + (c.toNat - 48)) 0)

def parseISODate (s : String) : Option (Nat × Nat × Nat) :=
  match splitCharList '-' s.data with
  | [y, m, d] =>
    if y.length == 4 && m.length == 2 && d.length == 2 then
      match digitsToNat? y, digitsToNat? m, digitsToNat? d with
      | some yn, some mn, some dn =>
        if 1 ≤ mn && mn ≤ 12 && 1 ≤ dn && dn ≤ 31 then some (yn, mn, dn)
        else none
      | _, _, _ => none
    else none
  | _ => none

/-- Locale printing of the parsed date, or the Invalid Date literal. -/
def jsDateToLocaleDateString (s : String) : String :=
  match parseISODate s with
  | some (y, m, d) => toString m ++ "/" ++ toString d ++ "/" ++ toString y
  | none => "Invalid Date"

/-- One entry of a select column's options list: value, label, optional
color and optional icon text (rendered inline by the badge). -/
structure SelectOption where
  value : String
  label : String
  color : Option String := none
  icon : Option String := none

/-- Declared column types.  The source switch treats date, url, select,
image and textarea specially; every other (or absent) declared type
falls to the default branch, represented here by the constructor text. -/
inductive ColType where
  | date
  | url
  | select
  | image
  | textarea
  | text
  deriving Repr, DecidableEq, BEq

/-- ColumnConfig: static descriptor of one displayable field.  The
render field is the caller-supplied custom render escape hatch
(value, item) to node. -/
structure ColumnConfig where
  key : String
  label : String
  type : ColType := .text
  options : Option (List SelectOption) := none
  render : Option (Value → GenericDataItem → PNode) := none

/-- Sentinel node for null and undefined values. -/
def notProvidedNode : PNode :=
  .span "text-muted-foreground italic" [.text "Not provided"]

/-- Sentinel node of the image branch for empty values. -/
def noImageNode : PNode :=
  .span "text-muted-foreground italic" [.text "No image"]

/-- Single bounded image render of the image branch (string value). -/
def singleImageNode (value : String) : PNode :=
  .div "space-y-2"
    [.div "relative w-full max-w-md mx-auto"
      [.img value "Detail image" 400 300
        "rounded-lg border object-cover w-full"
        (value.startsWith "data:" || value.startsWith "blob:")]]

/-- Thumbnail grid cells of the image branch (array value), one per
element in order, with one-based indexed alt text. -/
def imageThumbs (elems : List Value) : List PNode :=
  elems.enum.map fun p =>
    .div "relative aspect-square"
      [.img (jsToString p.2) ("Image " ++ toString (p.1 + 1)) 150 150
        "rounded-lg border object-cover w-full h-full"
        ((jsToString p.2).startsWith "data:" || (jsToString p.2).startsWith "blob:")]

/-- Caption text under the thumbnail grid: N image, with a plural s
exactly when N exceeds one. -/
def imageCountCaption (n : Nat) : String :=
  toString n ++ " image" ++ (if n > 1 then "s" else "")

/-- Falsiness of value.trim() in the image branch: the trimmed string
is empty exactly when every character is whitespace. -/
def jsStrBlank (s : String) : Bool :=
  s.data.all Char.isWhitespace

/-- The textarea replacement String(value).replace of the global
single-character newline pattern by the br tag, modelled character by
character. -/
def replaceNewlinesBr (s : String) : String :=
  String.join (s.data.map fun c =>
    if c = '\n' then "<br>" else String.singleton c)

/-- Badge render for a matched select option: secondary variant, tinted
by the option color when present (background color plus alpha suffix,
text color), icon prefix wrapped in a span when present, then the label. -/
def selectOptionBadge (o : SelectOption) : PNode :=
  .badge "secondary" "" (o.color.map fun c => (c ++ "20", c))
    ((match o.icon with
      | some i => [PNode.span "mr-1" [PNode.text i]]
      | none => []) ++ [PNode.text o.label])

/-- Row render for one truthy entry of a plain-object value in the
default branch: key label, then either a link (string values starting
with http) or plain text. -/
def objectEntryRow (kv : String × Value) : PNode :=
  .div "flex items-center justify-between p-2 rounded-md bg-muted/50"
    [.span "font-medium capitalize text-sm" [.text (kv.1 ++ ":")],
     (match kv.2 with
      | .vStr s =>
        if s.startsWith "http" then
          .anchor s "text-primary hover:underline text-sm flex items-center gap-1"
            [.text s, .icon "ExternalLink" "h-3 w-3"]
        else .span "text-sm" [.text s]
      | v => .span "text-sm" [.text (jsToString v)])]

/-- Default-branch dispatch on the runtime shape of the value: arrays
(tag badges or the None sentinel), plain objects (truthy entries as
rows, or the None provided sentinel), booleans (yes/no badge), numbers
(locale-formatted monospace text), and finally raw string coercion. -/
def defaultFormat (value : Value) : PNode :=
  match value with
  | .vArr l =>
    if l.length = 0 then .span "text-muted-foreground italic" [.text "None"]
    else
      .div "flex flex-wrap gap-1"
        (l.map fun item =>
          .badge "outline" "text-xs" none
            [.icon "Tag" "h-3 w-3 mr-1", .text (jsToString item)])
  | .vObj fields =>
    let entries := fields.filter fun kv => jsTruthy kv.2
    if entries.length = 0 then
      .span "text-muted-foreground italic" [.text "None provided"]
    else .div "space-y-2" (entries.map objectEntryRow)
  | .vBool b =>
    .badge (if b then "default" else "secondary") "" none
      [.text (if b then "Yes" else "No")]
  | .vNum n => .span "font-mono" [.text (numToLocaleString n)]
  | v => .span "" [.text (jsToString v)]

/-- The formatValue helper of DynamicDetailsModal, translated branch for
branch from the source: null and undefined first, then the custom
render escape hatch, then the switch on the declared column type. -/
def formatValue (value : Value) (column : ColumnConfig)
    (item : GenericDataItem) : PNode :=
  if isNullish value then notProvidedNode
  else
    match column.render with
    | some render => render value item
    | none =>
      match column.type with
      | .date =>
        .div "flex items-center gap-2"
          [.icon "Calendar" "h-4 w-4 text-muted-foreground",
           .span "" [.text (jsDateToLocaleDateString (jsToString value))]]
      | .url =>
        .anchor (jsToString value)
          "inline-flex items-center gap-1 text-primary hover:underline"
          [.text (jsToString value), .icon "ExternalLink" "h-3 w-3"]
      | .select =>
        match column.options with
        | some opts =>
          match opts.find? (fun opt => opt.value == jsToString value) with
          | some o => selectOptionBadge o
          | none => .badge "outline" "" none [.text (jsToString value)]
        | none => .badge "outline" "" none [.text (jsToString value)]
      | .image =>
        match value with
        | .vStr s =>
          if !(jsStrBlank s) then singleImageNode s
          else noImageNode
        | .vArr l =>
          if l.length > 0 then
            .div "space-y-3"
              [.div "grid grid-cols-2 sm:grid-cols-3 gap-3" (imageThumbs l),
               .para "text-sm text-muted-foreground text-center"
                 [.text (imageCountCaption l.length)]]
          else noImageNode
        | _ => noImageNode
      | .textarea =>
        .div "prose prose-sm max-w-none"
          [.rawHtmlDiv "whitespace-pre-wrap text-sm leading-relaxed"
            (replaceNewlinesBr (jsToString value))]
      | .text => defaultFormat value

/-- Membership predicate of the basicFields filter:
["title", "subtitle", "name", "email", "phone"].includes(col.key). -/
def isBasicField (col : ColumnConfig) : Bool :=
  ["title", "subtitle", "name", "email", "phone"].contains col.key

/-- Membership predicate of the mediaFields filter:
col.type === "image" || col.key.includes("image"). -/
def isMediaField (col : ColumnConfig) : Bool :=
  col.type == .image || strIncludes col.key "image"

/-- Membership predicate of the metaFields filter:
["createdAt", "updatedAt", "author", "views", "priority", "status"].includes(col.key). -/
def isMetaField (col : ColumnConfig) : Bool :=
  ["createdAt", "updatedAt", "author", "views", "priority", "status"].contains col.key

/-- The basicFields bucket: columns.filter with the basic key set. -/
def basicFields (columns : List ColumnConfig) : List ColumnConfig :=
  columns.filter isBasicField

/-- The mediaFields bucket: columns.filter with the image type/key test,
independent of the other buckets. -/
def mediaFields (columns : List ColumnConfig) : List ColumnConfig :=
  columns.filter isMediaField

/-- The metaFields bucket: columns.filter with the meta key set,
independent of the other buckets. -/
def metaFields (columns : List ColumnConfig) : List ColumnConfig :=
  columns.filter isMetaField

/-- The otherFields bucket.  The source filters columns by
!basicFields.includes(col) && !mediaFields.includes(col) &&
!metaFields.includes(col); since Array.prototype.includes compares
object references and each filtered array holds exactly the references
of columns satisfying its predicate, membership of col (an element of
columns) in basicFields is equivalent to isBasicField col, and likewise
for the other two, so the filter is exactly the conjoined negations. -/
def otherFields (columns : List ColumnConfig) : List ColumnConfig :=
  columns.filter fun col =>
    !isBasicField col && !isMediaField col && !isMetaField col

/-- The Label helper component: a div carrying the base label classes
plus the caller class. -/
def labelNode (cls : String) (children : List PNode) : PNode :=
  .div ("text-sm font-medium " ++ cls) children

/-- One field row of a section: label, then the formatted value of the
record under the column key. -/
def fieldRow (item : GenericDataItem) (column : ColumnConfig) : PNode :=
  .div "space-y-2"
    [labelNode "text-sm font-medium text-muted-foreground" [.text column.label],
     .div "min-h-6" [formatValue (getField item column.key) column item]]

/-- The renderFieldSection helper: null (no nodes) for an empty field
list, else a heading plus the grid of field rows. -/
def renderFieldSection (sectionTitle : String) (fields : List ColumnConfig)
    (item : GenericDataItem) : List PNode :=
  if fields.length = 0 then []
  else
    [.div "space-y-4"
      [.heading "text-lg font-semibold text-foreground" [.text sectionTitle],
       .div "grid gap-4" (fields.map (fieldRow item))]]

/-- The body layout over the four computed buckets: the sections in
display order with the three conditional separators exactly as guarded
in the source JSX. -/
def modalBodyOf (item : GenericDataItem) (b m o t : List ColumnConfig) :
    List PNode :=
  renderFieldSection "Basic Information" b item ++
  (if b.length > 0 ∧ (m.length > 0 ∨ o.length > 0 ∨ t.length > 0)
   then [PNode.separator] else []) ++
  renderFieldSection "Media" m item ++
  (if m.length > 0 ∧ (o.length > 0 ∨ t.length > 0)
   then [PNode.separator] else []) ++
  renderFieldSection "Additional Information" o item ++
  (if o.length > 0 ∧ t.length > 0 then [PNode.separator] else []) ++
  renderFieldSection "Meta Information" t item

/-- The modal body: the four grouped buckets laid out with conditional
separators. -/
def modalBody (item : GenericDataItem) (columns : List ColumnConfig) :
    List PNode :=
  modalBodyOf item (basicFields columns) (mediaFields columns)
    (otherFields columns) (metaFields columns)

/-- React/JavaScript truthiness of a rendered node: the empty text
(empty string) is the only falsy node shape a render can produce here. -/
def truthyNode : PNode → Bool
  | .text s => !s.isEmpty
  | _ => true

/-- The JavaScript a || b fallback on rendered nodes. -/
def jsOrNode (a b : PNode) : PNode :=
  if truthyNode a then a else b

/-- The formatValue call of the DialogTitle expression,
formatValue(item[columns[0]?.key], columns[0]).  When columns is empty,
columns[0] is undefined: the optional chain makes the looked-up property
key the string undefined, and formatValue returns the Not provided
sentinel before ever touching the undefined column (touching it would
throw, modelled by jsError). -/
def titleFormatted (item : GenericDataItem) (columns : List ColumnConfig) :
    PNode :=
  match columns with
  | [] =>
    if isNullish (getField item "undefined") then notProvidedNode
    else .jsError "TypeError: cannot read properties of undefined"
  | c :: _ => formatValue (getField item c.key) c item

/-- The DialogTitle expression
title || formatValue(item[columns[0]?.key], columns[0]) || "Details",
with the title prop modelled as an optional string (absent = undefined,
falsy exactly when absent or empty). -/
def dialogTitleNode (title : Option String) (item : GenericDataItem)
    (columns : List ColumnConfig) : PNode :=
  match title with
  | some t =>
    if !t.isEmpty then .text t
    else jsOrNode (titleFormatted item columns) (.text "Details")
  | none => jsOrNode (titleFormatted item columns) (.text "Details")

/-- ActionConfig: one action-bar entry.  The side effect of onClick is
modelled as a trace of abstract events of type E; the condition gates
visibility. -/
structure ActionConfig (E : Type) where
  key : String
  label : String
  variant : Option String := none
  icon : Option PNode := none
  onClick : GenericDataItem → List E
  condition : Option (GenericDataItem → Bool) := none

/-- The action-bar filter
actions.filter((action) => !action.condition || action.condition(item)). -/
def renderedActions {E : Type} (actions : List (ActionConfig E))
    (item : GenericDataItem) : List (ActionConfig E) :=
  actions.filter fun action =>
    match action.condition with
    | none => true
    | some cond => cond item

/-- The click handler of a rendered action button,
() => { action.onClick(item); onClose(); }: the trace it emits is the
onClick trace followed by the close trace, unconditionally. -/
def actionClickTrace {E : Type} (action : ActionConfig E)
    (item : GenericDataItem) (onCloseTrace : List E) : List E :=
  action.onClick item ++ onCloseTrace

mutual
/-- Error-freeness of a rendered tree: no jsError (thrown exception)
anywhere in the node. -/
def errFree : PNode → Bool
  | .text _ => true
  | .span _ cs => errFreeList cs
  | .div _ cs => errFreeList cs
  | .para _ cs => errFreeList cs
  | .heading _ cs => errFreeList cs
  | .icon _ _ => true
  | .anchor _ _ cs => errFreeList cs
  | .badge _ _ _ cs => errFreeList cs
  | .img _ _ _ _ _ _ => true
  | .rawHtmlDiv _ _ => true
  | .separator => true
  | .jsError _ => false

/-- Error-freeness of a list of rendered trees. -/
def errFreeList : List PNode → Bool
  | [] => true
  | n :: rest => errFree n && errFreeList rest
end

/-- Top-level separator test, for counting rendered separators. -/
def isSeparatorNode : PNode → Bool
  | .separator => true
  | _ => false

/-- The four bucket renders in display order, used to state where
separators may appear. -/
def sectionLists (item : GenericDataItem) (columns : List ColumnConfig) :
    List (List PNode) :=
  [renderFieldSection "Basic Information" (basicFields columns) item,
   renderFieldSection "Media" (mediaFields columns) item,
   renderFieldSection "Additional Information" (otherFields columns) item,
   renderFieldSection "Meta Information" (metaFields columns) item]

/-- Concrete column whose key is in the basic set and whose type is
image: it satisfies the basic and the media predicates at once. -/
def overlapCol : ColumnConfig :=
  { key := "email", label := "Email", type := .image }

/-- Concrete column claimed by no bucket predicate. -/
def bioCol : ColumnConfig :=
  { key := "bio", label := "Biography" }

/-- Concrete basic column for witnesses. -/
def nameCol : ColumnConfig :=
  { key := "name", label := "Name" }

/-- Concrete meta column for witnesses. -/
def createdAtCol : ColumnConfig :=
  { key := "createdAt", label := "Created", type := .date }

/-- Concrete select option for witnesses. -/
def activeOpt : SelectOption :=
  { value := "active", label := "Active", color := some "#22c55e",
    icon := some "*" }

/-- Concrete select column for witnesses. -/
def statusCol : ColumnConfig :=
  { key := "status", label := "Status", type := .select,
    options := some [activeOpt] }

/-- Concrete image column for witnesses. -/
def photoCol : ColumnConfig :=
  { key := "photo", label := "Photo", type := .image }

/-- Concrete textarea column for witnesses. -/
def descCol : ColumnConfig :=
  { key := "description", label := "Description", type := .textarea }

/-- Concrete url column for witnesses. -/
def linkCol : ColumnConfig :=
  { key := "link", label := "Link", type := .url }

/-- Concrete record for witnesses. -/
def demoItem : GenericDataItem :=
  [("name", .vStr "Bob"), ("createdAt", .vStr "2024-01-01"),
   ("status", .vStr "active")]

/-- Concrete action for witnesses: emits event 1, visible only when the
record field status is the string active. -/
def demoAction : ActionConfig Nat :=
  { key := "approve", label := "Approve",
    onClick := fun _ => [1],
    condition := some fun r => jsToString (getField r "status") == "active" }

/-- Concrete action with a condition that always fails, for witnesses. -/
def hiddenAction : ActionConfig Nat :=
  { key := "hide", label := "Hidden",
    onClick := fun _ => [2],
    condition := some fun _ => false }

/-!  Theorems.  Shared helper lemmas come first; each claim then gets
exactly one theorem (plus, where required, a witness or a
counterexample). -/

/-- Unfolding lemma: formatValue on a non-nullish value with no custom
render is the type switch. -/
theorem formatValue_eq_switch (v : Value) (col : ColumnConfig)
    (item : GenericDataItem) (hn : isNullish v = false)
    (hr : col.render = none) :
    formatValue v col item =
      match col.type with
      | .date =>
        .div "flex items-center gap-2"
          [.icon "Calendar" "h-4 w-4 text-muted-foreground",
           .span "" [.text (jsDateToLocaleDateString (jsToString v))]]
      | .url =>
        .anchor (jsToString v)
          "inline-flex items-center gap-1 text-primary hover:underline"
          [.text (jsToString v), .icon "ExternalLink" "h-3 w-3"]
      | .select =>
        match col.options with
        | some opts =>
          match opts.find? (fun opt => opt.value == jsToString v) with
          | some o => selectOptionBadge o
          | none => .badge "outline" "" none [.text (jsToString v)]
        | none => .badge "outline" "" none [.text (jsToString v)]
      | .image =>
        match v with
        | .vStr s => if !(jsStrBlank s) then singleImageNode s else noImageNode
        | .vArr l =>
          if l.length > 0 then
            .div "space-y-3"
              [.div "grid grid-cols-2 sm:grid-cols-3 gap-3" (imageThumbs l),
               .para "text-sm text-muted-foreground text-center"
                 [.text (imageCountCaption l.length)]]
          else noImageNode
        | _ => noImageNode
      | .textarea =>
        .div "prose prose-sm max-w-none"
          [.rawHtmlDiv "whitespace-pre-wrap text-sm leading-relaxed"
            (replaceNewlinesBr (jsToString v))]
      | .text => defaultFormat v := by
  unfold formatValue
  rw [hn, hr]
  simp only []
  cases col.type <;> first
  | rfl
  | (cases v <;> rfl)

/-- C2: for every column configuration (any declared type, any custom
render) and every record, a null or undefined value makes formatValue
return the Not provided sentinel node, before any dispatch on the
column type or on the custom render: the result is the sentinel
uniformly in the whole column. -/
theorem formatValue_nullish_sentinel (column : ColumnConfig)
    (item : GenericDataItem) :
    formatValue .vNull column item = notProvidedNode ∧
    formatValue .vUndefined column item = notProvidedNode :=
  ⟨rfl, rfl⟩

/-- C9: a custom render function is never invoked on a null or
undefined value: the sentinel takes precedence over the custom-render
escape hatch, so the output with render f equals the sentinel and in
particular is independent of which render function the column carries. -/
theorem render_not_invoked_on_nullish (v : Value)
    (f g : Value → GenericDataItem → PNode) (col : ColumnConfig)
    (item : GenericDataItem) (hv : isNullish v = true) :
    formatValue v { col with render := some f } item = notProvidedNode ∧
    formatValue v { col with render := some f } item =
      formatValue v { col with render := some g } item := by
  unfold formatValue
  rw [hv]
  exact ⟨rfl, rfl⟩

/-- C9 witness: at the concrete nullish value null, two different
render functions both give the sentinel. -/
theorem render_not_invoked_on_nullish_witness :
    formatValue .vNull { nameCol with render := some fun _ _ => .text "X" }
        demoItem = notProvidedNode ∧
    formatValue .vNull { nameCol with render := some fun _ _ => .text "X" }
        demoItem =
      formatValue .vNull { nameCol with render := some fun _ _ => .text "Y" }
        demoItem :=
  render_not_invoked_on_nullish .vNull _ _ nameCol demoItem rfl

/-- C3: for a select column with no custom render and a non-nullish
value, an options entry whose value equals the stringified input yields
the badge built from that option (label, color tint, icon); when no
entry matches, or options are absent, the result is the generic
outlined badge showing the raw stringified value. -/
theorem formatValue_select_cases (v : Value) (col : ColumnConfig)
    (item : GenericDataItem) (opts : List SelectOption)
    (hn : isNullish v = false) (hr : col.render = none)
    (ht : col.type = .select) :
    (∀ o, col.options = some opts →
      opts.find? (fun opt => opt.value == jsToString v) = some o →
      formatValue v col item = selectOptionBadge o) ∧
    (col.options = some opts →
      opts.find? (fun opt => opt.value == jsToString v) = none →
      formatValue v col item = .badge "outline" "" none [.text (jsToString v)]) ∧
    (col.options = none →
      formatValue v col item = .badge "outline" "" none [.text (jsToString v)]) := by
  rw [formatValue_eq_switch v col item hn hr, ht]
  refine ⟨?_, ?_, ?_⟩
  · intro o hopts hfind
    rw [hopts]
    simp [hfind]
  · intro hopts hfind
    rw [hopts]
    simp [hfind]
  · intro hopts
    rw [hopts]

/-- C3 witness: the concrete status column matches the value active to
its option and shows a raw outlined badge for a value with no match. -/
theorem formatValue_select_cases_witness :
    formatValue (.vStr "active") statusCol demoItem =
      selectOptionBadge activeOpt ∧
    formatValue (.vStr "archived") statusCol demoItem =
      .badge "outline" "" none [.text "archived"] := by
  constructor
  · exact (formatValue_select_cases (.vStr "active") statusCol demoItem
      [activeOpt] rfl rfl rfl).1 activeOpt rfl rfl
  · exact (formatValue_select_cases (.vStr "archived") statusCol demoItem
      [activeOpt] rfl rfl rfl).2.1 rfl rfl

/-- C10: for a textarea column with no custom render and a non-nullish
value, the output embeds the stringified value, newlines replaced by
br tags, through the raw-HTML constructor (dangerouslySetInnerHTML),
not through the escaped-text constructor. -/
theorem formatValue_textarea_raw_html (v : Value) (col : ColumnConfig)
    (item : GenericDataItem) (hn : isNullish v = false)
    (hr : col.render = none) (ht : col.type = .textarea) :
    formatValue v col item =
      .div "prose prose-sm max-w-none"
        [.rawHtmlDiv "whitespace-pre-wrap text-sm leading-relaxed"
          (replaceNewlinesBr (jsToString v))] ∧
    (∀ cls html cls2 children,
      PNode.rawHtmlDiv cls html ≠ PNode.span cls2 children) := by
  rw [formatValue_eq_switch v col item hn hr, ht]
  exact ⟨rfl, fun _ _ _ _ h => PNode.noConfusion h⟩

/-- C10 witness: a concrete two-line value with an embedded tag becomes
one raw-HTML blob with the newline turned into a br tag. -/
theorem formatValue_textarea_raw_html_witness :
    formatValue (.vStr "a\n<b>bold</b>") descCol demoItem =
      .div "prose prose-sm max-w-none"
        [.rawHtmlDiv "whitespace-pre-wrap text-sm leading-relaxed"
          "a<br><b>bold</b>"] := by
  have h := (formatValue_textarea_raw_html (.vStr "a\n<b>bold</b>") descCol
    demoItem rfl rfl rfl).1
  rw [h]
  rfl

/-- C4: for an image column with no custom render, a non-blank string
value yields the single image node; a non-empty array yields the grid
of exactly one thumbnail per element followed by the count caption,
with the singular caption 1 image and the plural caption N images;
an empty array or a blank string yields the No image sentinel. -/
theorem formatValue_image_cases (col : ColumnConfig) (item : GenericDataItem)
    (s : String) (l : List Value)
    (hr : col.render = none) (ht : col.type = .image) :
    (jsStrBlank s = false →
      formatValue (.vStr s) col item = singleImageNode s) ∧
    (l ≠ [] →
      formatValue (.vArr l) col item =
        .div "space-y-3"
          [.div "grid grid-cols-2 sm:grid-cols-3 gap-3" (imageThumbs l),
           .para "text-sm text-muted-foreground text-center"
             [.text (imageCountCaption l.length)]]) ∧
    (imageThumbs l).length = l.length ∧
    (l.length = 1 → imageCountCaption l.length = "1 image") ∧
    (2 ≤ l.length →
      imageCountCaption l.length = toString l.length ++ " images") ∧
    formatValue (.vArr []) col item = noImageNode ∧
    (jsStrBlank s = true →
      formatValue (.vStr s) col item = noImageNode) := by
  refine ⟨?_, ?_, ?_, ?_, ?_, ?_, ?_⟩
  · intro hs
    rw [formatValue_eq_switch (.vStr s) col item rfl hr, ht]
    simp [hs]
  · intro hl
    rw [formatValue_eq_switch (.vArr l) col item rfl hr, ht]
    simp [List.length_pos.mpr hl]
  · simp [imageThumbs]
  · intro h1
    rw [h1]
    rfl
  · intro h2
    have hgt : l.length > 1 := h2
    rw [imageCountCaption, if_pos hgt, String.append_assoc]
    rfl
  · rw [formatValue_eq_switch (.vArr []) col item rfl hr, ht]
    simp
  · intro hs
    rw [formatValue_eq_switch (.vStr s) col item rfl hr, ht]
    simp [hs]

/-- C4 witness: concrete image values show the three behaviours: a
plain URL gives a single image, a two-element array gives two
thumbnails and the caption 2 images, and the empty array and a blank
string give the sentinel. -/
theorem formatValue_image_cases_witness :
    formatValue (.vStr "https://x/a.png") photoCol demoItem =
      singleImageNode "https://x/a.png" ∧
    formatValue (.vArr [.vStr "a.png", .vStr "b.png"]) photoCol demoItem =
      .div "space-y-3"
        [.div "grid grid-cols-2 sm:grid-cols-3 gap-3"
          (imageThumbs [.vStr "a.png", .vStr "b.png"]),
         .para "text-sm text-muted-foreground text-center"
           [.text "2 images"]] ∧
    (imageThumbs [.vStr "a.png", .vStr "b.png"]).length = 2 ∧
    imageCountCaption 1 = "1 image" ∧
    formatValue (.vArr []) photoCol demoItem = noImageNode ∧
    formatValue (.vStr "   ") photoCol demoItem = noImageNode := by
  have h := formatValue_image_cases photoCol demoItem "https://x/a.png"
    [.vStr "a.png", .vStr "b.png"] rfl rfl
  have h2 := formatValue_image_cases photoCol demoItem "   " [] rfl rfl
  refine ⟨h.1 rfl, ?_, h.2.2.1, rfl, h2.2.2.2.2.2.1, h2.2.2.2.2.2.2 rfl⟩
  have hg := h.2.1 (by simp)
  rw [hg]
  rfl

/-- C1 counterexample: the column with key email and type image is
placed in the basic bucket and in the media bucket at once — the media
filter does not exclude columns already claimed by basic, so the four
buckets are not a non-overlapping partition. -/
theorem grouping_overlap_cex :
    overlapCol ∈ basicFields [overlapCol] ∧
    overlapCol ∈ mediaFields [overlapCol] :=
  ⟨List.Mem.head _, List.Mem.head _⟩

/-- C1 amended: the field grouper is exhaustive — every column lands in
at least one of the four buckets — and the other bucket is exactly the
columns claimed by none of basic, media and meta (hence disjoint from
them); but basic, media and meta are independent filters, so a column
matching two predicates appears in more than one bucket. -/
theorem grouping_exhaustive_other_disjoint (columns : List ColumnConfig)
    (col : ColumnConfig) (hmem : col ∈ columns) :
    (col ∈ basicFields columns ∨ col ∈ mediaFields columns ∨
     col ∈ metaFields columns ∨ col ∈ otherFields columns) ∧
    (col ∈ otherFields columns →
      col ∉ basicFields columns ∧ col ∉ mediaFields columns ∧
      col ∉ metaFields columns) ∧
    ((col ∈ basicFields columns ∨ col ∈ mediaFields columns ∨
      col ∈ metaFields columns) → col ∉ otherFields columns) := by
  cases hb : isBasicField col <;> cases hm : isMediaField col <;>
    cases hmt : isMetaField col <;>
    simp_all [basicFields, mediaFields, metaFields, otherFields,
      List.mem_filter]

/-- C1 amended witness: the concrete column with key bio matches no
bucket predicate, lands in the other bucket, and is excluded from the
first three. -/
theorem grouping_exhaustive_other_disjoint_witness :
    (bioCol ∈ basicFields [bioCol] ∨ bioCol ∈ mediaFields [bioCol] ∨
     bioCol ∈ metaFields [bioCol] ∨ bioCol ∈ otherFields [bioCol]) ∧
    (bioCol ∈ otherFields [bioCol] →
      bioCol ∉ basicFields [bioCol] ∧ bioCol ∉ mediaFields [bioCol] ∧
      bioCol ∉ metaFields [bioCol]) ∧
    ((bioCol ∈ basicFields [bioCol] ∨ bioCol ∈ mediaFields [bioCol] ∨
      bioCol ∈ metaFields [bioCol]) → bioCol ∉ otherFields [bioCol]) :=
  grouping_exhaustive_other_disjoint [bioCol] bioCol (List.Mem.head _)

/-- C5: the rendered action bar holds exactly the actions whose
condition is absent or true on the record; an action whose condition is
false on the record is omitted (its callback is unreachable); and the
click handler of a rendered action emits the onClick trace on the
record followed by the close trace, unconditionally and in that order. -/
theorem renderedActions_filter_and_click {E : Type}
    (actions : List (ActionConfig E)) (item : GenericDataItem)
    (a : ActionConfig E) (onCloseTrace : List E) :
    (a ∈ renderedActions actions item ↔
      a ∈ actions ∧
      match a.condition with
      | none => True
      | some cond => cond item = true) ∧
    (∀ cond, a.condition = some cond → cond item = false →
      a ∉ renderedActions actions item) ∧
    actionClickTrace a item onCloseTrace = a.onClick item ++ onCloseTrace := by
  have hmem : a ∈ renderedActions actions item ↔
      a ∈ actions ∧
      (match a.condition with
       | none => true
       | some cond => cond item) = true := by
    simp [renderedActions, List.mem_filter]
  refine ⟨?_, ?_, rfl⟩
  · rw [hmem]
    cases hc : a.condition <;> simp
  · intro cond hc hfalse hin
    rcases hmem.mp hin with ⟨-, hp⟩
    rw [hc] at hp
    simp [hfalse] at hp

/-- C5 witness: the concrete always-hidden action is omitted from its
own action bar, and the click trace of the demo action is its callback
event followed by the close event. -/
theorem renderedActions_filter_and_click_witness :
    hiddenAction ∉ renderedActions [hiddenAction] demoItem ∧
    actionClickTrace demoAction demoItem [0] = [1, 0] := by
  constructor
  · exact (renderedActions_filter_and_click [hiddenAction] demoItem
      hiddenAction []).2.1 _ rfl rfl
  · exact (renderedActions_filter_and_click [demoAction] demoItem
      demoAction [0]).2.2

/-- Every default-branch render is a truthy node (its head constructor
is never a bare text node). -/
theorem truthyNode_defaultFormat (v : Value) :
    truthyNode (defaultFormat v) = true := by
  cases v <;> simp only [defaultFormat] <;> (try split) <;> rfl

/-- Every built-in render is a truthy node: with no custom render,
formatValue never returns a falsy node (the sentinel spans included). -/
theorem truthyNode_formatValue (v : Value) (col : ColumnConfig)
    (item : GenericDataItem) (hr : col.render = none) :
    truthyNode (formatValue v col item) = true := by
  by_cases hn : isNullish v = true
  · unfold formatValue
    rw [hn]
    rfl
  · have hn2 : isNullish v = false := by simpa using hn
    rw [formatValue_eq_switch v col item hn2 hr]
    cases col.type
    · rfl
    · rfl
    · rcases col.options with _ | opts
      · rfl
      · rcases hfind : opts.find? (fun opt => opt.value == jsToString v)
          with _ | o <;> simp [hfind, selectOptionBadge, truthyNode]
    · cases v <;> try rfl
      · dsimp only
        split <;> rfl
      · dsimp only
        split <;> rfl
    · rfl
    · exact truthyNode_defaultFormat v

/-- C6 counterexample: the empty string supplied as the title argument
is not used as the dialog title: the source chain tests truthiness, not
presence, so the empty title falls through to the formatted value of
the record under the first column key. -/
theorem dialogTitle_empty_title_cex :
    dialogTitleNode (some "") [("name", Value.vStr "Bob")] [nameCol] =
      PNode.span "" [.text "Bob"] ∧
    PNode.span "" [.text "Bob"] ≠ PNode.text "" := by
  refine ⟨rfl, ?_⟩
  intro h
  exact PNode.noConfusion h

/-- C6 amended: the dialog title follows the three-way truthiness
fallback: a supplied non-empty title wins; an absent or empty title
falls back to the formatted value of the record under the first column
key against the literal Details; with no custom render that formatted
node is always truthy and is therefore used, and with an empty column
list the Not provided sentinel is used (when the record has no binding
for the literal key undefined), so the literal Details can only appear
when a custom render returns a falsy node. -/
theorem dialogTitle_fallback (title : Option String)
    (item : GenericDataItem) (columns : List ColumnConfig) :
    (∀ t, title = some t → t.isEmpty = false →
      dialogTitleNode title item columns = .text t) ∧
    ((title = none ∨ title = some "") →
      dialogTitleNode title item columns =
        jsOrNode (titleFormatted item columns) (.text "Details")) ∧
    (∀ c rest, columns = c :: rest → c.render = none →
      dialogTitleNode none item columns =
        formatValue (getField item c.key) c item) ∧
    (columns = [] → getField item "undefined" = .vUndefined →
      dialogTitleNode none item columns = notProvidedNode) := by
  refine ⟨?_, ?_, ?_, ?_⟩
  · intro t ht hne
    rw [ht]
    simp [dialogTitleNode, hne]
  · intro h
    rcases h with h | h <;> rw [h] <;> rfl
  · intro c rest hcols hrender
    rw [hcols]
    show jsOrNode (formatValue (getField item c.key) c item) (.text "Details") = _
    simp [jsOrNode, truthyNode_formatValue _ _ _ hrender]
  · intro hcols hund
    rw [hcols]
    show jsOrNode (titleFormatted item []) (.text "Details") = _
    simp [titleFormatted, jsOrNode, hund, truthyNode, notProvidedNode, isNullish]

/-- C6 amended witness: the concrete non-empty title Widget wins; with
no title, the record value under the first column key is used; with no
columns at all the sentinel is used. -/
theorem dialogTitle_fallback_witness :
    dialogTitleNode (some "Widget") demoItem [nameCol] = .text "Widget" ∧
    dialogTitleNode none demoItem [nameCol] =
      formatValue (getField demoItem "name") nameCol demoItem ∧
    dialogTitleNode none [] [] = notProvidedNode := by
  refine ⟨?_, ?_, ?_⟩
  · exact (dialogTitle_fallback (some "Widget") demoItem [nameCol]).1
      "Widget" rfl rfl
  · exact (dialogTitle_fallback none demoItem [nameCol]).2.2.1
      nameCol [] rfl rfl
  · exact (dialogTitle_fallback none [] []).2.2.2 rfl rfl

/-- Separator placement over the four bucket renders: the body is the
non-empty section renders interspersed with single separators, in
display order.  Proof by the sixteen emptiness cases. -/
theorem modalBodyOf_intersperse (item : GenericDataItem)
    (b m o t : List ColumnConfig) :
    modalBodyOf item b m o t =
      (List.intersperse [PNode.separator]
        (([renderFieldSection "Basic Information" b item,
           renderFieldSection "Media" m item,
           renderFieldSection "Additional Information" o item,
           renderFieldSection "Meta Information" t item]).filter
          fun l => !l.isEmpty)).join := by
  rcases b with _ | ⟨b0, bs⟩ <;> rcases m with _ | ⟨m0, ms⟩ <;>
    rcases o with _ | ⟨o0, os⟩ <;> rcases t with _ | ⟨t0, ts⟩ <;>
    simp [modalBodyOf, renderFieldSection, List.intersperse]

/-- C7: separators are rendered only between two non-empty adjacent
sections in display order — the body equals the non-empty section
renders interspersed with single separators — and in particular, when
only the basic and meta buckets are non-empty, the body is the basic
section, exactly one separator, then the meta section. -/
theorem modalBody_separator_placement (item : GenericDataItem)
    (columns : List ColumnConfig) :
    modalBody item columns =
      (List.intersperse [PNode.separator]
        ((sectionLists item columns).filter fun l => !l.isEmpty)).join ∧
    (basicFields columns ≠ [] → metaFields columns ≠ [] →
     mediaFields columns = [] → otherFields columns = [] →
      modalBody item columns =
        renderFieldSection "Basic Information" (basicFields columns) item ++
        [PNode.separator] ++
        renderFieldSection "Meta Information" (metaFields columns) item ∧
      ((modalBody item columns).filter isSeparatorNode).length = 1) := by
  refine ⟨modalBodyOf_intersperse item _ _ _ _, ?_⟩
  intro hb hmt hm ho
  have hb0 : (basicFields columns).length ≠ 0 := fun h0 =>
    hb (List.length_eq_zero.mp h0)
  have ht0 : (metaFields columns).length ≠ 0 := fun h0 =>
    hmt (List.length_eq_zero.mp h0)
  have hshape : modalBody item columns =
      renderFieldSection "Basic Information" (basicFields columns) item ++
      [PNode.separator] ++
      renderFieldSection "Meta Information" (metaFields columns) item := by
    unfold modalBody modalBodyOf
    rw [hm, ho]
    simp [renderFieldSection, hb0, ht0, Nat.pos_of_ne_zero hb0,
      Nat.pos_of_ne_zero ht0]
  refine ⟨hshape, ?_⟩
  rw [hshape]
  simp [renderFieldSection, hb0, ht0, List.filter_append, isSeparatorNode]

/-- C7 witness: with one basic column and one meta column (media and
additional empty), the body is the basic section, one separator, the
meta section, and the separator count is one. -/
theorem modalBody_separator_placement_witness :
    modalBody demoItem [nameCol, createdAtCol] =
      renderFieldSection "Basic Information"
        (basicFields [nameCol, createdAtCol]) demoItem ++
      [PNode.separator] ++
      renderFieldSection "Meta Information"
        (metaFields [nameCol, createdAtCol]) demoItem ∧
    ((modalBody demoItem [nameCol, createdAtCol]).filter
      isSeparatorNode).length = 1 := by
  have h := (modalBody_separator_placement demoItem [nameCol, createdAtCol]).2
  exact h (by rw [show basicFields [nameCol, createdAtCol] = [nameCol] from rfl]
              exact List.cons_ne_nil _ _)
           (by rw [show metaFields [nameCol, createdAtCol] = [createdAtCol] from rfl]
               exact List.cons_ne_nil _ _)
           rfl rfl

/-- List error-freeness is the conjunction over elements. -/
theorem errFreeList_eq_all (l : List PNode) : errFreeList l = l.all errFree := by
  induction l with
  | nil => rfl
  | cons x xs ih => simp [errFreeList, List.all_cons, ih]

/-- Every object-entry row is error-free. -/
theorem errFree_objectEntryRow (kv : String × Value) :
    errFree (objectEntryRow kv) = true := by
  rcases kv with ⟨k, v⟩
  cases v <;> try rfl
  dsimp only [objectEntryRow]
  split <;> rfl

/-- Every select-option badge is error-free. -/
theorem errFree_selectOptionBadge (o : SelectOption) :
    errFree (selectOptionBadge o) = true := by
  rcases o with ⟨val, lab, color, icon⟩
  cases icon <;> rfl

/-- List error-freeness from elementwise error-freeness. -/
theorem errFreeList_of_forall (l : List PNode)
    (h : ∀ n ∈ l, errFree n = true) : errFreeList l = true := by
  induction l with
  | nil => rfl
  | cons x xs ih =>
    simp [errFreeList, h x (List.mem_cons_self x xs),
      ih fun n hn => h n (List.mem_cons_of_mem x hn)]

/-- Every thumbnail grid is error-free. -/
theorem errFreeList_imageThumbs (l : List Value) :
    errFreeList (imageThumbs l) = true := by
  apply errFreeList_of_forall
  intro n hn
  simp only [imageThumbs] at hn
  rcases List.mem_map.mp hn with ⟨p, hp, rfl⟩
  rfl

/-- Every default-branch render is error-free. -/
theorem errFree_defaultFormat (v : Value) :
    errFree (defaultFormat v) = true := by
  cases v <;> try rfl
  · dsimp only [defaultFormat]
    split
    · rfl
    · rw [errFree]
      apply errFreeList_of_forall
      intro n hn
      rcases List.mem_map.mp hn with ⟨x, hx, rfl⟩
      rfl
  · dsimp only [defaultFormat]
    split
    · rfl
    · rw [errFree]
      apply errFreeList_of_forall
      intro n hn
      rcases List.mem_map.mp hn with ⟨kv, hkv, rfl⟩
      exact errFree_objectEntryRow kv

/-- C8: the value formatter is total and never throws: for every value
of any runtime shape and every column with no custom render, the output
tree contains no thrown-exception node; malformed date strings degrade
to the literal Invalid Date text rather than raising, and any url value
(malformed or not) is rendered as a literal anchored text without
validation. -/
theorem formatValue_total_no_throw (v : Value) (col : ColumnConfig)
    (item : GenericDataItem) (hr : col.render = none) :
    errFree (formatValue v col item) = true ∧
    (isNullish v = false → col.type = .date →
      parseISODate (jsToString v) = none →
      formatValue v col item =
        .div "flex items-center gap-2"
          [.icon "Calendar" "h-4 w-4 text-muted-foreground",
           .span "" [.text "Invalid Date"]]) ∧
    (isNullish v = false → col.type = .url →
      formatValue v col item =
        .anchor (jsToString v)
          "inline-flex items-center gap-1 text-primary hover:underline"
          [.text (jsToString v), .icon "ExternalLink" "h-3 w-3"]) := by
  refine ⟨?_, ?_, ?_⟩
  · by_cases hn : isNullish v = true
    · unfold formatValue
      rw [hn]
      rfl
    · have hn2 : isNullish v = false := by simpa using hn
      rw [formatValue_eq_switch v col item hn2 hr]
      cases col.type
      · rfl
      · rfl
      · rcases col.options with _ | opts
        · rfl
        · rcases hfind : opts.find? (fun opt => opt.value == jsToString v)
            with _ | o <;>
            simp [hfind, errFree, errFreeList, errFree_selectOptionBadge]
      · cases v <;> try rfl
        · dsimp only
          split <;> rfl
        · dsimp only
          split
          · simp [errFree, errFreeList, errFreeList_imageThumbs]
          · rfl
      · rfl
      · exact errFree_defaultFormat v
  · intro hn hd hparse
    rw [formatValue_eq_switch v col item hn hr, hd, jsDateToLocaleDateString,
      hparse]
  · intro hn hu
    rw [formatValue_eq_switch v col item hn hr, hu]

/-- C8 witness: a nested object value renders error-free, the concrete
unparseable date string degrades to the Invalid Date text, and a
malformed url string is rendered verbatim as a link. -/
theorem formatValue_total_no_throw_witness :
    errFree (formatValue
      (.vObj [("site", .vStr "http://x"), ("none", .vNull)])
      bioCol demoItem) = true ∧
    formatValue (.vStr "definitely not a date") createdAtCol demoItem =
      .div "flex items-center gap-2"
        [.icon "Calendar" "h-4 w-4 text-muted-foreground",
         .span "" [.text "Invalid Date"]] ∧
    formatValue (.vStr "htp:/bad url") linkCol demoItem =
      .anchor "htp:/bad url"
        "inline-flex items-center gap-1 text-primary hover:underline"
        [.text "htp:/bad url", .icon "ExternalLink" "h-3 w-3"] := by
  refine ⟨?_, ?_, ?_⟩
  · exact (formatValue_total_no_throw
      (.vObj [("site", .vStr "http://x"), ("none", .vNull)])
      bioCol demoItem rfl).1
  · exact (formatValue_total_no_throw (.vStr "definitely not a date")
      createdAtCol demoItem rfl).2.1 rfl rfl rfl
  · exact (formatValue_total_no_throw (.vStr "htp:/bad url")
      linkCol demoItem rfl).2.2 rfl rfl

end DynamicDetailsModal
